import Mathlib

/-!
Verification of the voronoi-places overlay engine (src/main.js).

The source is a single-page map application: a Voronoi overlay is rebuilt on
every viewport settle (`idle`) event.  `performRenderCycle` first runs the
synchronous `derender` (clear error banner, detach the overlay referenced by
the global `overlay` variable, clear all markers) and then the asynchronous
`render` (fetch places, create markers, construct and attach a fresh
`VoronoiOverlay`).  We embed the global program state and the event-driven
control flow as a step function on an explicit state record, and the geometric
diagram construction as pure functions on rational coordinates.
-/

/-- A point in container-pixel space (or a lat/lng pair), as a pair of
rationals. -/
abbrev Pt : Type := ℚ × ℚ

/-- Squared Euclidean distance between two points. -/
def dist2 (p q : Pt) : ℚ := (p.1 - q.1) ^ 2 + (p.2 - q.2) ^ 2

/-- An axis-aligned clip rectangle, the `[xmin, ymin, xmax, ymax]` bounds that
`delaunay.voronoi` receives in `VoronoiOverlay.prototype.onAdd`. -/
structure ClipRect where
  xmin : ℚ
  ymin : ℚ
  xmax : ℚ
  ymax : ℚ
deriving DecidableEq, Repr

/-- A clip rectangle is valid when it has positive extent on both axes. -/
def ClipRect.valid (R : ClipRect) : Prop := R.xmin < R.xmax ∧ R.ymin < R.ymax

instance (R : ClipRect) : Decidable R.valid := by
  unfold ClipRect.valid; infer_instance

/-- Membership of a point in a clip rectangle (boundary included). -/
def inRect (R : ClipRect) (p : Pt) : Prop :=
  R.xmin ≤ p.1 ∧ p.1 ≤ R.xmax ∧ R.ymin ≤ p.2 ∧ p.2 ≤ R.ymax

instance (R : ClipRect) (p : Pt) : Decidable (inRect R p) := by
  unfold inRect; infer_instance

/-- Strict membership of a point in a clip rectangle (boundary excluded). -/
def strictlyInRect (R : ClipRect) (p : Pt) : Prop :=
  R.xmin < p.1 ∧ p.1 < R.xmax ∧ R.ymin < p.2 ∧ p.2 < R.ymax

instance (R : ClipRect) (p : Pt) : Decidable (strictlyInRect R p) := by
  unfold strictlyInRect; infer_instance

/-- The clip rectangle as a point set. -/
def rectSet (R : ClipRect) : Set Pt := {p | inRect R p}

/-- Modelled from the spec: the clipped Voronoi dual computed by the external
d3-delaunay library (`Delaunay.from(points).voronoi(bounds)`), which is not
part of this repository's sources.  Following the spec's glossary ("Diagram
cell: the polygon of locations closer to one site than to any other, clipped
to the visible rectangle"), the cell of site `s` in site list `sites` under
clip rectangle `R` is the set of points of `R` at least as close to `s` as to
every site. -/
def voronoiCell (sites : List Pt) (s : Pt) (R : ClipRect) : Set Pt :=
  {p | inRect R p ∧ ∀ t ∈ sites, dist2 p s ≤ dist2 p t}

/-- Modelled from the spec: the diagram produced by the builder is one cell
per site, in site order. -/
def diagramCells (sites : List Pt) (R : ClipRect) : List (Set Pt) :=
  sites.map (fun s => voronoiCell sites s R)

/-- The clip bounds array assembled in `onAdd` and passed to
`delaunay.voronoi`: `[swCont.x, neCont.y, neCont.x, swCont.y]`, where `swCont`
and `neCont` are the container-pixel projections of the geographic south-west
and north-east corners of `this.bounds_`. -/
def voronoiClipArray (proj : Pt → Pt) (sw ne : Pt) : List ℚ :=
  [(proj sw).1, (proj ne).2, (proj ne).1, (proj sw).2]

/-- The geometric output of `VoronoiOverlay.prototype.onAdd`: project the
marker positions to container-pixel space, assemble the clip bounds with the
axis flip, and build the clipped Voronoi diagram. -/
def onAddDiagram (proj : Pt → Pt) (positions : List Pt) (sw ne : Pt) :
    List (Set Pt) :=
  diagramCells (positions.map proj)
    ⟨(proj sw).1, (proj ne).2, (proj ne).1, (proj sw).2⟩

/-- A fetched place: `place.name` and `place.geometry.location`.  A marker is
created from a place carrying exactly these two fields. -/
structure Place where
  name : String
  location : Pt
deriving DecidableEq, Repr

/-- The global program state of main.js that the render cycle reads and
writes:

* `overlayVar` — the global `overlay` variable (the id of the
  `VoronoiOverlay` instance it references, if any);
* `attachedOverlays` — ids of every constructed `VoronoiOverlay` instance
  whose map is currently set (`setMap(map)` in effect, not yet
  `setMap(null)`);
* `activeMarkers` — the global `activeMarkers` array (each listed marker is
  on the map; `clearMarkers` pops and detaches them in lockstep);
* `errorText` — the `error-banner` element's `innerText`;
* `mapCenter` — `mapCenterCoords`;
* `pendingFetches` — the number of `render` invocations currently suspended
  on `await getPlaces()`;
* `nextOverlayId` — fresh-id counter for `new VoronoiOverlay(map)`. -/
structure AppState where
  overlayVar : Option Nat
  attachedOverlays : List Nat
  activeMarkers : List Place
  errorText : Option String
  mapCenter : Pt
  pendingFetches : Nat
  nextOverlayId : Nat
deriving DecidableEq, Repr

/-- `setErrorText(text)`. -/
def setErrorText (s : AppState) (t : Option String) : AppState :=
  { s with errorText := t }

/-- The `if (overlay) { overlay.setMap(null); overlay = null; }` block of
`derender`: detach the instance the global variable references (no other
instance is touched) and null the variable; a no-op when the variable is
already null. -/
def detachOverlay (s : AppState) : AppState :=
  match s.overlayVar with
  | some i =>
      { s with attachedOverlays := s.attachedOverlays.filter (fun j => j ≠ i)
               overlayVar := none }
  | none => s

/-- `clearMarkers()`: pop every marker from `activeMarkers`, detaching each
from the map. -/
def clearMarkers (s : AppState) : AppState :=
  { s with activeMarkers := [] }

/-- `derender()`: clear the error banner, detach the referenced overlay,
clear the markers.  Fully synchronous. -/
def derender (s : AppState) : AppState :=
  clearMarkers (detachOverlay (setErrorText s none))

/-- `createMarkers(places)`: push one marker per place onto
`activeMarkers`, each attached to the map. -/
def createMarkers (s : AppState) (places : List Place) : AppState :=
  { s with activeMarkers := s.activeMarkers ++ places }

/-- `overlay = new VoronoiOverlay(map); overlay.setMap(map);` — the
constructor itself calls `this.setMap(map)`, so the fresh instance is
attached and the global variable is overwritten to reference it.  The
previously referenced instance is *not* detached here. -/
def attachNewOverlay (s : AppState) : AppState :=
  { s with overlayVar := some s.nextOverlayId
           attachedOverlays := s.attachedOverlays ++ [s.nextOverlayId]
           nextOverlayId := s.nextOverlayId + 1 }

/-- The error-banner messages of `getPlaces` and `geocode`. -/
def noResultsText : String := "No results. Try searching for something else"

/-- Banner text for a Places API failure other than `ZERO_RESULTS`. -/
def placesErrorText : String := "Error querying Places API. This isn't normal!"

/-- Banner text for a Geocoding API failure. -/
def geocodeErrorText : String :=
  "Error querying Geocoding API. This isn't normal!"

/-- The callback passed to `placesService.nearbySearch` inside the promise
executor of `getPlaces`.  Returns the new state together with the promise
settlement: `some results` when the promise is resolved, `none` when the
callback returns without resolving or rejecting (statuses other than
`'OK'` only set the error banner). -/
def nearbySearchCallback (s : AppState) (status : String)
    (results : List Place) : AppState × Option (List Place) :=
  if status = "OK" then (s, some results)
  else if status = "ZERO_RESULTS" then
    (setErrorText s (some noResultsText), none)
  else
    (setErrorText s (some placesErrorText), none)

/-- The rest of `render` after `await getPlaces()` resumes with `places`:
`createMarkers(places); overlay = new VoronoiOverlay(map);
overlay.setMap(map);`. -/
def resumeRender (s : AppState) (places : List Place) : AppState :=
  attachNewOverlay (createMarkers s places)

/-- `performRenderCycle()` up to the suspension point: `derender()` runs
synchronously, then `render()` calls `getPlaces()`, which synchronously
issues the `nearbySearch` request and suspends `render` on the returned
promise. -/
def performRenderCycle (s : AppState) : AppState :=
  let s' := derender s
  { s' with pendingFetches := s'.pendingFetches + 1 }

/-- One outstanding `nearbySearch` request completing with `status` and
`results`: the callback runs, and if it resolved the promise the suspended
`render` continuation runs to completion (the event loop interleaves nothing
inside it).  With no outstanding fetch the event cannot occur. -/
def stepResolve (s : AppState) (status : String) (results : List Place) :
    AppState :=
  if s.pendingFetches = 0 then s
  else
    let s' := { s with pendingFetches := s.pendingFetches - 1 }
    match nearbySearchCallback s' status results with
    | (s'', some places) => resumeRender s'' places
    | (s'', none) => s''

/-- The events the single-threaded event loop delivers to this program: a
viewport settle (`idle`) and the completion of an outstanding places fetch. -/
inductive Ev where
  | idle : Ev
  | fetchResult (status : String) (results : List Place) : Ev
deriving DecidableEq, Repr

/-- One event-loop step. -/
def step (s : AppState) : Ev → AppState
  | Ev.idle => performRenderCycle s
  | Ev.fetchResult status results => stepResolve s status results

/-- Run a trace of events from a state. -/
def run (s : AppState) (tr : List Ev) : AppState := tr.foldl step s

/-- The state after `initApis()` and before the first `idle` event: no
overlay, no markers, empty banner, Munich center, no outstanding fetch. -/
def initState : AppState :=
  { overlayVar := none
    attachedOverlays := []
    activeMarkers := []
    errorText := none
    mapCenter := (481351 / 10000, 115820 / 10000)
    pendingFetches := 0
    nextOverlayId := 0 }

/-- The callback passed to `geocoderService.geocode` inside the promise
executor of `geocode`: on `'OK'` the promise resolves with
`results[0].geometry.location`; on any other status only the error banner is
set and the promise is never settled. -/
def geocodeCallback (s : AppState) (status : String) (results : List Pt) :
    AppState × Option Pt :=
  if status = "OK" then (s, results.head?)
  else (setErrorText s (some geocodeErrorText), none)

/-- The `search-form-location` submit listener, given the geocode outcome:
`mapCenterCoords = await geocode(...)` suspends on the promise; when (and
only when) the promise resolves, `map.setCenter(mapCenterCoords)` and
`performRenderCycle()` run. -/
def submitLocation (s : AppState) (status : String) (results : List Pt) :
    AppState :=
  match geocodeCallback s status results with
  | (s', some loc) => performRenderCycle { s' with mapCenter := loc }
  | (s', none) => s'

/-- A trace is overlap-free when no `idle` event arrives while a fetch is
still outstanding: every render cycle's fetch completes before the next
settle event. -/
def noOverlapFrom (s : AppState) : List Ev → Bool
  | [] => true
  | Ev.idle :: rest =>
      s.pendingFetches == 0 && noOverlapFrom (performRenderCycle s) rest
  | Ev.fetchResult status results :: rest =>
      noOverlapFrom (stepResolve s status results) rest

/-! ### Geometry lemmas -/

theorem dist2_nonneg (p q : Pt) : 0 ≤ dist2 p q :=
  add_nonneg (sq_nonneg _) (sq_nonneg _)

theorem dist2_self (p : Pt) : dist2 p p = 0 := by
  simp [dist2]

theorem dist2_eq_zero {p q : Pt} (h : dist2 p q = 0) : p = q := by
  unfold dist2 at h
  have h1 : p.1 - q.1 = 0 := by
    nlinarith [sq_nonneg (p.1 - q.1), sq_nonneg (p.2 - q.2)]
  have h2 : p.2 - q.2 = 0 := by
    nlinarith [sq_nonneg (p.1 - q.1), sq_nonneg (p.2 - q.2)]
  have e1 : p.1 = q.1 := by linarith
  have e2 : p.2 = q.2 := by linarith
  exact Prod.ext e1 e2

theorem strictlyInRect_inRect {R : ClipRect} {p : Pt}
    (h : strictlyInRect R p) : inRect R p :=
  ⟨le_of_lt h.1, le_of_lt h.2.1, le_of_lt h.2.2.1, le_of_lt h.2.2.2⟩

/-- A site belongs to its own cell whenever it lies in the clip rectangle. -/
theorem mem_own_cell {sites : List Pt} {s : Pt} {R : ClipRect}
    (hin : inRect R s) : s ∈ voronoiCell sites s R := by
  refine ⟨hin, fun t _ => ?_⟩
  rw [dist2_self]
  exact dist2_nonneg s t

/-- A site of the list belongs to another site's cell only if the two sites
coincide. -/
theorem eq_of_mem_other_cell {sites : List Pt} {s t : Pt} {R : ClipRect}
    (hs : s ∈ sites) (hmem : s ∈ voronoiCell sites t R) : s = t := by
  have hle : dist2 s t ≤ dist2 s s := hmem.2 s hs
  rw [dist2_self] at hle
  have hz : dist2 s t = 0 := le_antisymm hle (dist2_nonneg s t)
  exact dist2_eq_zero hz

/-- Cells of distinct in-rectangle sites are distinct sets. -/
theorem cell_inj_on {sites : List Pt} {R : ClipRect}
    (hin : ∀ s ∈ sites, strictlyInRect R s) :
    ∀ s ∈ sites, ∀ t ∈ sites,
      voronoiCell sites s R = voronoiCell sites t R → s = t := by
  intro s hs t ht hcells
  have hsmem : s ∈ voronoiCell sites s R :=
    mem_own_cell (strictlyInRect_inRect (hin s hs))
  rw [hcells] at hsmem
  exact eq_of_mem_other_cell hs hsmem

/-! ### Diagram claims -/

/-- C1: for every clip rectangle `R` with `xmin < xmax`, `ymin < ymax` and
every site set of pairwise-distinct points strictly inside `R`, the clipped
Voronoi diagram built from the sites yields exactly `|S|` cells: one cell
per site, the cells pairwise distinct. -/
theorem C1_cell_count (sites : List Pt) (R : ClipRect) (hval : R.valid)
    (hnd : sites.Nodup) (hin : ∀ s ∈ sites, strictlyInRect R s) :
    (diagramCells sites R).length = sites.length ∧
      (diagramCells sites R).Nodup := by
  constructor
  · simp [diagramCells]
  · exact hnd.map_on (cell_inj_on hin)

theorem C1_cell_count_witness :
    (ClipRect.mk 0 0 4 4).valid ∧
      ([((1 : ℚ), (1 : ℚ)), ((3 : ℚ), (3 : ℚ))] : List Pt).Nodup ∧
      (∀ s ∈ ([((1 : ℚ), (1 : ℚ)), ((3 : ℚ), (3 : ℚ))] : List Pt),
        strictlyInRect ⟨0, 0, 4, 4⟩ s) ∧
      ((diagramCells [((1 : ℚ), (1 : ℚ)), ((3 : ℚ), (3 : ℚ))]
          ⟨0, 0, 4, 4⟩).length = 2 ∧
        (diagramCells [((1 : ℚ), (1 : ℚ)), ((3 : ℚ), (3 : ℚ))]
          ⟨0, 0, 4, 4⟩).Nodup) :=
  ⟨by decide, by decide, by decide,
    C1_cell_count _ _ (by decide) (by decide) (by decide)⟩

/-- C7: for every valid clip rectangle `R` and a single site, the diagram has
exactly one cell and that cell is the whole clip rectangle. -/
theorem C7_single_cell (R : ClipRect) (hval : R.valid) (s : Pt) :
    (diagramCells [s] R).length = 1 ∧ diagramCells [s] R = [rectSet R] := by
  refine ⟨rfl, ?_⟩
  simp only [diagramCells, List.map]
  congr 1
  ext p
  simp [voronoiCell, rectSet]

theorem C7_single_cell_witness :
    (ClipRect.mk 0 0 2 2).valid ∧
      ((diagramCells [((1 : ℚ), (1 : ℚ))] ⟨0, 0, 2, 2⟩).length = 1 ∧
        diagramCells [((1 : ℚ), (1 : ℚ))] ⟨0, 0, 2, 2⟩ =
          [rectSet ⟨0, 0, 2, 2⟩]) :=
  ⟨by decide, C7_single_cell _ (by decide) _⟩

/-- C4: the clip bounds handed to the Voronoi construction are assembled with
the axis flip `[west_x, north_y, east_x, south_y]`, and (as soon as the two
corners differ in vertical pixel position) this is not the unflipped
`[west_x, south_y, east_x, north_y]`. -/
theorem C4_clip_axis_flip (proj : Pt → Pt) (sw ne : Pt)
    (h : (proj sw).2 ≠ (proj ne).2) :
    voronoiClipArray proj sw ne =
      [(proj sw).1, (proj ne).2, (proj ne).1, (proj sw).2] ∧
    voronoiClipArray proj sw ne ≠
      [(proj sw).1, (proj sw).2, (proj ne).1, (proj ne).2] := by
  refine ⟨rfl, ?_⟩
  intro heq
  simp only [voronoiClipArray, List.cons.injEq, and_true] at heq
  exact h heq.2.1.symm

theorem C4_clip_axis_flip_witness :
    ((fun p : Pt => p) ((0 : ℚ), (10 : ℚ))).2 ≠
        ((fun p : Pt => p) ((5 : ℚ), (2 : ℚ))).2 ∧
      (voronoiClipArray (fun p => p) ((0 : ℚ), (10 : ℚ)) ((5 : ℚ), (2 : ℚ)) =
          [0, 2, 5, 10] ∧
        voronoiClipArray (fun p => p) ((0 : ℚ), (10 : ℚ)) ((5 : ℚ), (2 : ℚ)) ≠
          [0, 10, 5, 2]) :=
  ⟨by decide, C4_clip_axis_flip (fun p => p) _ _ (by decide)⟩

/-- `onAdd` as a step on the program state: it reads `activeMarkers` and the
bounds captured at construction, computes the diagram, and draws it into the
div it owns; it writes none of the orchestrator's globals. -/
def runOnAdd (proj : Pt → Pt) (s : AppState) (sw ne : Pt) :
    AppState × List (Set Pt) :=
  (s, onAddDiagram proj (s.activeMarkers.map Place.location) sw ne)

/-- C9: the diagram computation is deterministic and side-effect free — two
runs of `onAdd` over states carrying the same marker list (in the same
order) and the same captured bounds produce identical cell output, whatever
the rest of the two states hold, and a run leaves the program state exactly
as it was. -/
theorem C9_deterministic (proj : Pt → Pt) (s1 s2 : AppState) (sw ne : Pt)
    (h : s1.activeMarkers = s2.activeMarkers) :
    (runOnAdd proj s1 sw ne).2 = (runOnAdd proj s2 sw ne).2 ∧
      (runOnAdd proj s1 sw ne).1 = s1 := by
  refine ⟨?_, rfl⟩
  simp [runOnAdd, h]

theorem C9_deterministic_witness :
    (initState.activeMarkers =
        (setErrorText initState (some "boom")).activeMarkers) ∧
      ((runOnAdd (fun p => p) initState (0, 10) (5, 2)).2 =
          (runOnAdd (fun p => p) (setErrorText initState (some "boom"))
            (0, 10) (5, 2)).2 ∧
        (runOnAdd (fun p => p) initState (0, 10) (5, 2)).1 = initState) :=
  ⟨rfl, C9_deterministic (fun p => p) initState _ (0, 10) (5, 2) rfl⟩

/-! ### Render-cycle invariant for overlap-free executions -/

/-- The state invariant maintained by overlap-free executions: at most one
fetch is outstanding, the attached overlays are exactly the one the global
variable references, and while a fetch is outstanding the variable is null
(derender already ran for that cycle). -/
def seqInv (s : AppState) : Prop :=
  s.pendingFetches ≤ 1 ∧ s.attachedOverlays = s.overlayVar.toList ∧
    (s.pendingFetches = 1 → s.overlayVar = none)

theorem initState_seqInv : seqInv initState :=
  ⟨Nat.zero_le _, rfl, fun _ => rfl⟩

/-- After `performRenderCycle`'s synchronous part, a state whose attached
overlays were exactly the referenced one has no markers, a null overlay
variable, and no attached overlay at all. -/
theorem performRenderCycle_clean {s : AppState}
    (h : s.attachedOverlays = s.overlayVar.toList) :
    (performRenderCycle s).activeMarkers = [] ∧
      (performRenderCycle s).overlayVar = none ∧
      (performRenderCycle s).attachedOverlays = [] := by
  cases hov : s.overlayVar with
  | none =>
      rw [hov] at h
      simp [performRenderCycle, derender, clearMarkers, detachOverlay,
        setErrorText, hov, h]
  | some i =>
      rw [hov] at h
      simp [performRenderCycle, derender, clearMarkers, detachOverlay,
        setErrorText, hov, h, Option.toList, List.filter]

/-- `performRenderCycle`'s synchronous part unconditionally empties the
marker list and nulls the overlay variable, whatever the starting state. -/
theorem performRenderCycle_derendered (s : AppState) :
    (performRenderCycle s).activeMarkers = [] ∧
      (performRenderCycle s).overlayVar = none := by
  cases hov : s.overlayVar <;>
    simp [performRenderCycle, derender, clearMarkers, detachOverlay,
      setErrorText, hov]

theorem performRenderCycle_pending (s : AppState) :
    (performRenderCycle s).pendingFetches = s.pendingFetches + 1 := by
  simp [performRenderCycle, derender, clearMarkers, detachOverlay,
    setErrorText]
  cases s.overlayVar <;> rfl

theorem seqInv_performRenderCycle {s : AppState} (h : seqInv s)
    (hp : s.pendingFetches = 0) : seqInv (performRenderCycle s) := by
  obtain ⟨hm, hv, ha⟩ := performRenderCycle_clean h.2.1
  refine ⟨?_, ?_, fun _ => hv⟩
  · rw [performRenderCycle_pending, hp]
  · rw [ha, hv]; rfl

theorem seqInv_stepResolve {s : AppState} (h : seqInv s) (status : String)
    (results : List Place) : seqInv (stepResolve s status results) := by
  by_cases h0 : s.pendingFetches = 0
  · simp [stepResolve, h0]; exact h
  · have h1 : s.pendingFetches = 1 :=
      le_antisymm h.1 (Nat.one_le_iff_ne_zero.mpr h0)
    have hvar : s.overlayVar = none := h.2.2 h1
    have hatt : s.attachedOverlays = [] := by rw [h.2.1, hvar]; rfl
    by_cases hok : status = "OK"
    · simp [stepResolve, h0, nearbySearchCallback, hok, resumeRender,
        attachNewOverlay, createMarkers, seqInv, h1, hvar, hatt]
    · by_cases hzero : status = "ZERO_RESULTS" <;>
        simp [stepResolve, h0, nearbySearchCallback, hok, hzero,
          setErrorText, seqInv, h1, hvar, hatt]

/-- Overlap-free traces preserve the sequential invariant. -/
theorem seqInv_run {s : AppState} (h : seqInv s) :
    ∀ tr : List Ev, noOverlapFrom s tr = true → seqInv (run s tr) := by
  intro tr
  induction tr generalizing s with
  | nil => intro _; exact h
  | cons e rest ih =>
      cases e with
      | idle =>
          intro hno
          simp only [noOverlapFrom, Bool.and_eq_true, beq_iff_eq] at hno
          exact ih (seqInv_performRenderCycle h hno.1) hno.2
      | fetchResult status results =>
          intro hno
          simp only [noOverlapFrom] at hno
          exact ih (seqInv_stepResolve h status results) hno

/-- A prefix of an overlap-free trace is overlap-free. -/
theorem noOverlapFrom_append_left {s : AppState} {pre post : List Ev}
    (h : noOverlapFrom s (pre ++ post) = true) :
    noOverlapFrom s pre = true := by
  induction pre generalizing s with
  | nil => rfl
  | cons e rest ih =>
      cases e with
      | idle =>
          simp only [List.cons_append, noOverlapFrom, Bool.and_eq_true] at h ⊢
          exact ⟨h.1, ih h.2⟩
      | fetchResult status results =>
          simp only [List.cons_append, noOverlapFrom] at h ⊢
          exact ih h

/-! ### Lifecycle claims -/

/-- First place fetched in the racy trace. -/
def racePlaceA : Place := ⟨"A", (1, 1)⟩

/-- Second place fetched in the racy trace. -/
def racePlaceB : Place := ⟨"B", (3, 3)⟩

/-- A second settle event arrives while the first cycle's fetch is still
pending, then both fetches resolve with `OK`. -/
def raceTrace : List Ev :=
  [Ev.idle, Ev.idle, Ev.fetchResult "OK" [racePlaceA],
    Ev.fetchResult "OK" [racePlaceB]]

/-- C2 counterexample: after the racy trace, two `VoronoiOverlay` instances
are attached to the map at once — the first cycle's overlay attached after
the second cycle's derender had already run, and the second cycle's
resolution overwrote the global variable without detaching it. -/
theorem C2_counterexample :
    (run initState raceTrace).attachedOverlays.length = 2 ∧
      ¬ (run initState raceTrace).attachedOverlays.length ≤ 1 := by
  decide

/-- C2 (amended): at most one overlay is attached at any instant of any
execution in which no settle event arrives while a fetch is pending (every
cycle's fetch completes before the next settle). -/
theorem C2_single_overlay (tr pre : List Ev)
    (hpre : ∃ post, pre ++ post = tr)
    (h : noOverlapFrom initState tr = true) :
    (run initState pre).attachedOverlays.length ≤ 1 := by
  obtain ⟨post, rfl⟩ := hpre
  have hinv : seqInv (run initState pre) :=
    seqInv_run initState_seqInv pre (noOverlapFrom_append_left h)
  rw [hinv.2.1]
  cases (run initState pre).overlayVar <;> simp [Option.toList]

theorem C2_single_overlay_witness :
    (∃ post, [Ev.idle] ++ post =
        [Ev.idle, Ev.fetchResult "OK" [racePlaceA]]) ∧
      noOverlapFrom initState
        [Ev.idle, Ev.fetchResult "OK" [racePlaceA]] = true ∧
      (run initState [Ev.idle]).attachedOverlays.length ≤ 1 :=
  ⟨⟨[Ev.fetchResult "OK" [racePlaceA]], rfl⟩, by decide,
    C2_single_overlay [Ev.idle, Ev.fetchResult "OK" [racePlaceA]] [Ev.idle]
      ⟨[Ev.fetchResult "OK" [racePlaceA]], rfl⟩ (by decide)⟩

/-- The racy trace followed by one more settle event: the final `idle` issues
a fetch while the first cycle's leaked overlay is still attached. -/
def raceTraceIdle : List Ev := raceTrace ++ [Ev.idle]

/-- C3 counterexample: at the instant the last fetch is issued (final `idle`
of the racy trace, one fetch outstanding), the marker set is empty but an
overlay is still attached — derender only detached the instance the global
variable referenced, not the one leaked by the overlapping cycles. -/
theorem C3_counterexample :
    (run initState raceTraceIdle).pendingFetches = 1 ∧
      (run initState raceTraceIdle).activeMarkers = [] ∧
      ¬ (run initState raceTraceIdle).attachedOverlays = [] := by
  decide

/-- C3 (amended): within every render cycle — racy executions included —
derender completes in full before the fetch for that cycle is issued, so at
that instant the marker set is empty and the global overlay reference is
null; provided no settle event ever arrived while a fetch was pending, no
overlay at all is attached at that instant. -/
theorem C3_derender_before_fetch (tr : List Ev) :
    (run initState (tr ++ [Ev.idle])).activeMarkers = [] ∧
      (run initState (tr ++ [Ev.idle])).overlayVar = none ∧
      (noOverlapFrom initState (tr ++ [Ev.idle]) = true →
        (run initState (tr ++ [Ev.idle])).attachedOverlays = []) := by
  have hrun : run initState (tr ++ [Ev.idle]) =
      performRenderCycle (run initState tr) := by
    simp [run, List.foldl_append, step]
  refine ⟨?_, ?_, ?_⟩
  · rw [hrun]
    exact (performRenderCycle_derendered _).1
  · rw [hrun]
    exact (performRenderCycle_derendered _).2
  · intro h
    have hinv : seqInv (run initState tr) :=
      seqInv_run initState_seqInv tr (noOverlapFrom_append_left h)
    rw [hrun]
    exact (performRenderCycle_clean hinv.2.1).2.2

theorem C3_derender_before_fetch_witness :
    noOverlapFrom initState ([Ev.idle, Ev.fetchResult "OK" [racePlaceA]] ++
        [Ev.idle]) = true ∧
      ((run initState ([Ev.idle, Ev.fetchResult "OK" [racePlaceA]] ++
          [Ev.idle])).activeMarkers = [] ∧
        (run initState ([Ev.idle, Ev.fetchResult "OK" [racePlaceA]] ++
          [Ev.idle])).overlayVar = none ∧
        (run initState ([Ev.idle, Ev.fetchResult "OK" [racePlaceA]] ++
          [Ev.idle])).attachedOverlays = []) :=
  ⟨by decide,
    (C3_derender_before_fetch
      [Ev.idle, Ev.fetchResult "OK" [racePlaceA]]).1,
    (C3_derender_before_fetch
      [Ev.idle, Ev.fetchResult "OK" [racePlaceA]]).2.1,
    (C3_derender_before_fetch
      [Ev.idle, Ev.fetchResult "OK" [racePlaceA]]).2.2 (by decide)⟩

/-- C6: detaching when no overlay is referenced is a no-op, and running the
detach step (`derender`) twice in succession leaves the program state —
overlay reference, marker list, map attachments, banner — identical to
running it once. -/
theorem C6_detach_idempotent (s : AppState) :
    (s.overlayVar = none → detachOverlay s = s) ∧
      derender (derender s) = derender s := by
  constructor
  · intro h
    simp [detachOverlay, h]
  · cases hov : s.overlayVar <;>
      simp [derender, clearMarkers, detachOverlay, setErrorText, hov]

theorem C6_detach_idempotent_witness :
    initState.overlayVar = none ∧
      detachOverlay initState = initState ∧
      derender (derender initState) = derender initState :=
  ⟨rfl, (C6_detach_idempotent initState).1 rfl,
    (C6_detach_idempotent initState).2⟩

/-- C8: when the geocode request fails (status other than `'OK'`), the
callback only sets the banner and never settles the promise, so the submit
listener never resumes: the map center is unchanged and no render cycle (no
fetch, no derender) runs for that submission. -/
theorem C8_geocode_failure (s : AppState) (status : String)
    (results : List Pt) (h : status ≠ "OK") :
    submitLocation s status results =
        setErrorText s (some geocodeErrorText) ∧
      (submitLocation s status results).mapCenter = s.mapCenter ∧
      (submitLocation s status results).pendingFetches = s.pendingFetches ∧
      (submitLocation s status results).attachedOverlays =
        s.attachedOverlays ∧
      (submitLocation s status results).activeMarkers = s.activeMarkers := by
  have hc : geocodeCallback s status results =
      (setErrorText s (some geocodeErrorText), none) := by
    simp [geocodeCallback, h]
  simp [submitLocation, hc, setErrorText]

theorem C8_geocode_failure_witness :
    ("ERROR" : String) ≠ "OK" ∧
      (submitLocation initState "ERROR" [] =
          setErrorText initState (some geocodeErrorText) ∧
        (submitLocation initState "ERROR" []).mapCenter =
          initState.mapCenter ∧
        (submitLocation initState "ERROR" []).pendingFetches =
          initState.pendingFetches ∧
        (submitLocation initState "ERROR" []).attachedOverlays =
          initState.attachedOverlays ∧
        (submitLocation initState "ERROR" []).activeMarkers =
          initState.activeMarkers) :=
  ⟨by decide, C8_geocode_failure initState "ERROR" [] (by decide)⟩

/-- C10: when the places query completes with any status other than `'OK'`,
the promise returned by `getPlaces` is never settled — the callback neither
resolves nor rejects — so the awaiting `render` never resumes: no marker is
created, and no `VoronoiOverlay` is constructed or attached for that
cycle. -/
theorem C10_promise_never_settles (s : AppState) (status : String)
    (results : List Place) (h : status ≠ "OK") :
    (nearbySearchCallback s status results).2 = none ∧
      (stepResolve s status results).activeMarkers = s.activeMarkers ∧
      (stepResolve s status results).overlayVar = s.overlayVar ∧
      (stepResolve s status results).attachedOverlays =
        s.attachedOverlays ∧
      (stepResolve s status results).nextOverlayId = s.nextOverlayId := by
  by_cases hz : status = "ZERO_RESULTS" <;> by_cases h0 : s.pendingFetches = 0 <;>
    simp [nearbySearchCallback, stepResolve, h, hz, h0, setErrorText]

theorem C10_promise_never_settles_witness :
    ("ZERO_RESULTS" : String) ≠ "OK" ∧
      ((nearbySearchCallback initState "ZERO_RESULTS" []).2 = none ∧
        (stepResolve initState "ZERO_RESULTS" []).activeMarkers =
          initState.activeMarkers ∧
        (stepResolve initState "ZERO_RESULTS" []).overlayVar =
          initState.overlayVar ∧
        (stepResolve initState "ZERO_RESULTS" []).attachedOverlays =
          initState.attachedOverlays ∧
        (stepResolve initState "ZERO_RESULTS" []).nextOverlayId =
          initState.nextOverlayId) :=
  ⟨by decide, C10_promise_never_settles initState "ZERO_RESULTS" []
    (by decide)⟩
